import Mathlib

/-!
Shallow embedding of `src/controllers/subscription.controller.js` from the
VideoTube backend: five request handlers over two document stores (users and
subscription edges).  Identifiers (Mongo ObjectIds) are modelled as strings;
each store is a list of documents in natural order, so `findOne` is the first
match, `$lookup` gathers all matches, and `$unwind` flattens — the composite
is `List.flatMap`.
-/

set_option autoImplicit false

namespace VideoTube

/-- A user document; only the fields the controller consumes. -/
structure User where
  _id : String
  username : String
  fullName : String
  avatar : String
  deriving Repr, DecidableEq

/-- A subscription edge document: `subscriber` follows `channel`. -/
structure SubscriptionDoc where
  _id : String
  subscriber : String
  channel : String
  deriving Repr, DecidableEq

/-- The two collaborating stores. -/
structure DB where
  users : List User
  subscriptions : List SubscriptionDoc
  deriving Repr, DecidableEq

/-- Response envelope: an `ApiResponse` success or an `ApiError`. -/
inductive Resp (α : Type) where
  | ok (statusCode : Nat) (data : α)
  | err (statusCode : Nat) (message : String)
  deriving Repr, DecidableEq

/-- Payload of the status-check handler. -/
structure CheckData where
  isSubscribed : Bool
  deriving Repr, DecidableEq

/-- Payload of the toggle handler: the spread of the created edge (absent in
the unsubscribe branch) plus the `isSubscribed` flag. -/
structure ToggleData where
  subscriptionDoc : Option SubscriptionDoc
  isSubscribed : Bool
  deriving Repr, DecidableEq

/-- Mongoose `isValidObjectId` on a string argument: a 24-character hex
string, or any 12-character string. -/
def isValidObjectId (s : String) : Bool :=
  (s.length == 24 && s.toList.all (fun c => c.isDigit || ("abcdefABCDEF".toList.contains c)))
    || s.length == 12

/-- JS falsiness of an optional string parameter: absent or empty. -/
def strFalsy : Option String → Bool
  | none => true
  | some s => s == ""

/-- JS `a || b` on an optional string: the default applies when the value is
absent or empty. -/
def jsOr (o : Option String) (d : String) : String :=
  match o with
  | none => d
  | some s => if s == "" then d else s

/-- The value `new mongoose.Types.ObjectId(userId)` matches against: the
given id when the parameter is present, a freshly generated id when the
parameter is `undefined`. -/
def objectIdOfParam (userId : Option String) (fresh : String) : String :=
  match userId with
  | some u => u
  | none => fresh

/-- `Subscription.findOne({channel, subscriber})`: first edge in natural
order matching both fields. -/
def findOneSub (db : DB) (channelId subscriberId : String) : Option SubscriptionDoc :=
  db.subscriptions.find? (fun s => s.channel == channelId && s.subscriber == subscriberId)

/-- Result object of `Subscription.deleteOne`. -/
structure DeleteResult where
  deletedCount : Nat
  deriving Repr, DecidableEq

/-- JS truthiness of the `deleteOne` result: it is always an object, hence
always truthy, whatever `deletedCount` says. -/
def jsTruthyDeleteResult (_ : DeleteResult) : Bool := true

/-- `Subscription.deleteOne({_id})`: removes the first edge with that id and
reports how many documents were deleted. -/
def deleteOneById (db : DB) (i : String) : DB × DeleteResult :=
  ({ db with subscriptions := db.subscriptions.eraseP (fun s => s._id == i) },
   ⟨if db.subscriptions.any (fun s => s._id == i) then 1 else 0⟩)

/-- The document built by `Subscription.create({channel, subscriber})`, with
the id the store generates. -/
def mkSub (freshId channelId subscriberId : String) : SubscriptionDoc :=
  { _id := freshId, subscriber := subscriberId, channel := channelId }

/-- `Subscription.create`: appends the new edge document. -/
def createSub (db : DB) (channelId subscriberId freshId : String) : DB × SubscriptionDoc :=
  ({ db with subscriptions := db.subscriptions ++ [mkSub freshId channelId subscriberId] },
   mkSub freshId channelId subscriberId)

/-- Handler `checkSubscriptionStatus` (source lines 11-41): validate the
`channelId` path parameter, look up the edge, report its existence. -/
def checkSubscriptionStatus (db : DB) (requester : String) (channelId : Option String) :
    Resp CheckData × DB :=
  if strFalsy channelId then
    (.err 400 "Channel id is required.", db)
  else
    let c := channelId.getD ""
    if !isValidObjectId c then
      (.err 400 "Invalid channel id.", db)
    else
      let subscription := findOneSub db c requester
      (.ok 200 ⟨subscription.isSome⟩, db)

/-- Unsubscribe branch of the toggle handler (source lines 64-83), parametric
in the store's delete result: the guard tests only JS truthiness of the
result object. -/
def unsubscribeBranch (dr : DeleteResult) (db : DB) : Resp ToggleData × DB :=
  if !jsTruthyDeleteResult dr then
    (.err 500 "Subscription not found or already unsubscribed.", db)
  else
    (.ok 200 ⟨none, false⟩, db)

/-- JS truthiness of the document `Subscription.create` resolves with: a
document object is always truthy. -/
def jsTruthyDoc (_ : SubscriptionDoc) : Bool := true

/-- Handler `toggleSubscriptionStatus` (source lines 44-109): validate, look
up the edge, delete it if present, create one otherwise.  `freshId` is the id
the store would generate for a created edge. -/
def toggleSubscriptionStatus (db : DB) (requester : String) (channelId : Option String)
    (freshId : String) : Resp ToggleData × DB :=
  if strFalsy channelId then
    (.err 400 "Channel id is required.", db)
  else
    let c := channelId.getD ""
    if !isValidObjectId c then
      (.err 400 "Invalid channel id.", db)
    else
      match findOneSub db c requester with
      | some existingSubscription =>
          let (db1, dr) := deleteOneById db existingSubscription._id
          unsubscribeBranch dr db1
      | none =>
          let (db1, subscription) := createSub db c requester freshId
          if !jsTruthyDoc subscription then
            (.err 500 "Internal Server Error: Subscription could not be created.", db1)
          else
            (.ok 201 ⟨some subscription, true⟩, db1)

/-- One projected row of the subscriber-listing pipeline. -/
structure SubscriberSummary where
  subscriber : String
  username : String
  fullName : String
  avatar : String
  deriving Repr, DecidableEq

/-- Projection of a user document to a subscriber summary. -/
def toSubscriberSummary (v : User) : SubscriberSummary :=
  { subscriber := v._id, username := v.username, fullName := v.fullName, avatar := v.avatar }

/-- Aggregation pipeline of `getChannelSubscribersList` (source lines
121-158): match the user with the given id, look up the edges on that
channel, unwind, look up each subscriber's user document, unwind, project.
Each lookup-then-unwind pair is a `flatMap` over the matching documents in
natural order. -/
def channelSubscribersAgg (db : DB) (matchId : String) : List SubscriberSummary :=
  (db.users.filter (fun u => u._id == matchId)).flatMap (fun u =>
    (db.subscriptions.filter (fun s => s.channel == u._id)).flatMap (fun s =>
      (db.users.filter (fun v => v._id == s.subscriber)).map toSubscriberSummary))

/-- Handler `getChannelSubscribersList` (source lines 113-175).  The source
computes `targetUserId` and `skip` but uses neither: the pipeline matches the
raw `userId` parameter, `fresh` standing for the ObjectId generated when it
is `undefined`, and no skip or limit stage exists. -/
def getChannelSubscribersList (db : DB) (requester : String) (userId : Option String)
    (page limit : Nat) (fresh : String) : Resp (List SubscriberSummary) × DB :=
  let _targetUserId := jsOr userId requester
  let _skip := (page - 1) * limit
  let getChannelSubscribers := channelSubscribersAgg db (objectIdOfParam userId fresh)
  if getChannelSubscribers.length == 0 then
    (.err 404 "No subscribers found for this channel.", db)
  else
    (.ok 200 getChannelSubscribers, db)

/-- One projected row of the subscribed-channels pipelines. -/
structure ChannelSummary where
  _id : String
  username : String
  fullName : String
  avatar : String
  totalSubscribers : Nat
  deriving Repr, DecidableEq

/-- A channel summary together with the post-pipeline `isSubscribedByMe`
flag. -/
structure ChannelResult extends ChannelSummary where
  isSubscribedByMe : Bool
  deriving Repr, DecidableEq

/-- Payload shared by the subscribed-channels listing and search handlers. -/
structure SubscribedChannelsData where
  subscribedChannels : List ChannelResult
  currentPage : Nat
  totalPages : Nat
  totalSubscribedChannels : Nat
  deriving Repr, DecidableEq

/-- Projection of an edge joined with its channel's user document, with the
subscriber count of that channel. -/
def toChannelSummary (db : DB) (s : SubscriptionDoc) (u : User) : ChannelSummary :=
  { _id := u._id, username := u.username, fullName := u.fullName, avatar := u.avatar,
    totalSubscribers := (db.subscriptions.filter (fun t => t.channel == s.channel)).length }

/-- Aggregation pipeline of `getUserSubscribedChannels` before the skip and
limit stages (source lines 190-221): match edges of the target subscriber,
look up the channel's user document, unwind, look up the channel's
subscriber edges, project with `$size`. -/
def subscribedChannelsAgg (db : DB) (target : String) : List ChannelSummary :=
  (db.subscriptions.filter (fun s => s.subscriber == target)).flatMap (fun s =>
    (db.users.filter (fun u => u._id == s.channel)).map (toChannelSummary db s))

/-- `Subscription.countDocuments({subscriber: target})`. -/
def countBySubscriber (db : DB) (target : String) : Nat :=
  (db.subscriptions.filter (fun s => s.subscriber == target)).length

/-- The batched lookup `Subscription.find({subscriber, channel: {$in:
channelIds}})` (source lines 233-236 and 358-361). -/
def subscriptionsByMe (db : DB) (requester : String) (channelIds : List String) :
    List SubscriptionDoc :=
  db.subscriptions.filter (fun s => s.subscriber == requester && channelIds.contains s.channel)

/-- Post-pipeline step shared by listing and search (source lines 231-244 and
356-368): collect the page's channel ids, run one batched lookup over exactly
those ids, and flag each page entry by membership of its id in the looked-up
set. -/
def addIsSubscribedByMe (db : DB) (requester : String) (pageItems : List ChannelSummary) :
    List ChannelResult :=
  let channelIds := pageItems.map (fun c => c._id)
  let subscribedByMeSet := (subscriptionsByMe db requester channelIds).map (fun s => s.channel)
  pageItems.map (fun c => { c with isSubscribedByMe := subscribedByMeSet.contains c._id })

/-- JS `Math.ceil(total / limit)` for a positive integer `limit`. -/
def jsCeilDiv (total limit : Nat) : Nat :=
  (total + limit - 1) / limit

/-- Handler `getUserSubscribedChannels` (source lines 179-265): count the
target's edges, build the page of channel summaries with skip and limit,
attach `isSubscribedByMe`, and always answer 200. -/
def getUserSubscribedChannels (db : DB) (requester : String) (userId : Option String)
    (page limit : Nat) : Resp SubscribedChannelsData × DB :=
  let targetUserId := jsOr userId requester
  let skip := (page - 1) * limit
  let totalSubscribedChannels := countBySubscriber db targetUserId
  let subscribedChannels := ((subscribedChannelsAgg db targetUserId).drop skip).take limit
  let result := addIsSubscribedByMe db requester subscribedChannels
  let totalPages := jsCeilDiv totalSubscribedChannels limit
  (.ok 200 ⟨result, page, totalPages, totalSubscribedChannels⟩, db)

/-- Case-insensitive list containment: `pat` occurs contiguously in `s`. -/
def listPrefixOf : List Char → List Char → Bool
  | [], _ => true
  | _ :: _, [] => false
  | a :: as, b :: bs => a == b && listPrefixOf as bs

/-- Whether `pat` occurs as a contiguous run of `l`. -/
def listContainsRun (pat : List Char) : List Char → Bool
  | [] => listPrefixOf pat []
  | c :: cs => listPrefixOf pat (c :: cs) || listContainsRun pat cs

/-- Case-insensitive substring test, modelling `$regex: search, $options: "i"`
for the patterns the claims use (the empty pattern matches everything). -/
def strContainsCI (pat s : String) : Bool :=
  listContainsRun (pat.toList.map Char.toLower) (s.toList.map Char.toLower)

/-- The `$match` stage on the joined channel document (source lines 294-300
and 327-333): case-insensitive match of `search` against `fullName` or
`username`. -/
def matchesSearch (search : String) (u : User) : Bool :=
  strContainsCI search u.fullName || strContainsCI search u.username

/-- Count pipeline of `searchSubscribedChannels` (source lines 276-306):
match the target's edges, join and unwind channel documents, filter by the
search, count; `totalSubscribedChannels[0]?.count || 0` is the length of the
surviving rows. -/
def searchCountAgg (db : DB) (target search : String) : Nat :=
  ((db.subscriptions.filter (fun s => s.subscriber == target)).flatMap (fun s =>
    (db.users.filter (fun u => u._id == s.channel)).filter (matchesSearch search))).length

/-- Page pipeline of `searchSubscribedChannels` before skip and limit (source
lines 309-353): the listing pipeline with the search filter inserted after
the channel join. -/
def searchChannelsAgg (db : DB) (target search : String) : List ChannelSummary :=
  (db.subscriptions.filter (fun s => s.subscriber == target)).flatMap (fun s =>
    ((db.users.filter (fun u => u._id == s.channel)).filter (matchesSearch search)).map
      (toChannelSummary db s))

/-- Handler `searchSubscribedChannels` (source lines 268-391).  The handler
body never throws in this sequential model, so the surrounding catch-and-
rewrap to a 500 never fires. -/
def searchSubscribedChannels (db : DB) (requester : String) (userId : Option String)
    (search : String) (page limit : Nat) : Resp SubscribedChannelsData × DB :=
  let targetUserId := jsOr userId requester
  let skip := (page - 1) * limit
  let totalCount := searchCountAgg db targetUserId search
  let subscribedChannels := ((searchChannelsAgg db targetUserId search).drop skip).take limit
  let result := addIsSubscribedByMe db requester subscribedChannels
  let totalPages := jsCeilDiv totalCount limit
  (.ok 200 ⟨result, page, totalPages, totalCount⟩, db)

/-! Helper lemmas about the store operations. -/

theorem findOneSub_isSome_iff (db : DB) (c r : String) :
    (findOneSub db c r).isSome = true
      ↔ ∃ s ∈ db.subscriptions, s.channel = c ∧ s.subscriber = r := by
  simp [findOneSub, List.find?_isSome]

theorem findOneSub_eq_none_iff (db : DB) (c r : String) :
    findOneSub db c r = none
      ↔ ∀ s ∈ db.subscriptions, ¬(s.channel = c ∧ s.subscriber = r) := by
  simp [findOneSub, List.find?_eq_none]

theorem isValidObjectId_ne_empty (c : String) (hc : isValidObjectId c = true) :
    (c == "") = false := by
  rcases h : c == "" with _ | _
  · rfl
  · rw [show c = "" from eq_of_beq h] at hc
    exact absurd hc (by decide)

theorem eraseP_by_id_eq_erase (l : List SubscriptionDoc) (e : SubscriptionDoc)
    (he : e ∈ l) (hnd : (l.map (fun s => s._id)).Nodup) :
    l.eraseP (fun s => s._id == e._id) = l.erase e := by
  induction l with
  | nil => cases he
  | cons a t ih =>
      rcases List.nodup_cons.1 hnd with ⟨hna, hndt⟩
      by_cases hae : a._id = e._id
      · have hae' : a = e := by
          rcases List.mem_cons.1 he with h | h
          · exact h.symm
          · have hmem : e._id ∈ t.map (fun s => s._id) := List.mem_map_of_mem _ h
            rw [← hae] at hmem
            exact absurd hmem hna
        subst hae'
        rw [List.eraseP_cons, List.erase_cons]
        simp
      · have hne : a ≠ e := fun h => hae (h ▸ rfl)
        have het : e ∈ t := by
          rcases List.mem_cons.1 he with h | h
          · exact absurd h.symm hne
          · exact h
        rw [List.eraseP_cons, List.erase_cons]
        have h1 : (a._id == e._id) = false := by simpa using hae
        have h2 : (a == e) = false := by simpa using hne
        simp [h1, h2, ih het hndt]

theorem find?_append_of_none {α : Type} (p : α → Bool) (l1 l2 : List α)
    (h : l1.find? p = none) : (l1 ++ l2).find? p = l2.find? p := by
  induction l1 with
  | nil => rfl
  | cons a t ih =>
      rcases hpa : p a with _ | _
      · simp only [List.cons_append, List.find?_cons, hpa, cond_false] at h ⊢
        exact ih h
      · simp [List.find?_cons, hpa] at h

theorem eraseP_append_singleton {α : Type} (p : α → Bool) (l : List α) (e : α)
    (hl : ∀ s ∈ l, p s = false) (he : p e = true) :
    (l ++ [e]).eraseP p = l := by
  induction l with
  | nil => simp [List.eraseP_cons, he]
  | cons a t ih =>
      have ha : p a = false := hl a (List.mem_cons_self a t)
      simp only [List.cons_append, List.eraseP_cons, ha, cond_false]
      rw [ih (fun s hs => hl s (List.mem_cons_of_mem a hs))]

/-! Concrete fixtures used by witnesses and counterexamples. -/

/-- A well-formed 24-hex-character ObjectId. -/
def idA : String := "aaaaaaaaaaaaaaaaaaaaaaaa"

/-- A second well-formed ObjectId. -/
def idB : String := "bbbbbbbbbbbbbbbbbbbbbbbb"

/-- A third well-formed ObjectId, standing for a freshly generated one. -/
def idC : String := "cccccccccccccccccccccccc"

/-- A fourth well-formed ObjectId with no user document. -/
def idD : String := "dddddddddddddddddddddddd"

/-- Fixture user acting as a channel. -/
def userR : User := { _id := idA, username := "ruser", fullName := "R User", avatar := "r.png" }

/-- Fixture user acting as a subscriber. -/
def userS : User := { _id := idB, username := "suser", fullName := "S User", avatar := "s.png" }

/-- Fixture state: `userS` subscribes to `userR`. -/
def dbOneSubscriber : DB :=
  { users := [userR, userS], subscriptions := [{ _id := "e1", subscriber := idB, channel := idA }] }

/-- Fixture state: `userS` subscribes to the id `idD` for which no user
document exists (a dangling edge). -/
def dbDangling : DB :=
  { users := [userR, userS], subscriptions := [{ _id := "e2", subscriber := idB, channel := idD }] }

/-- Fixture state with no subscription edges. -/
def dbEmptySubs : DB := { users := [userR, userS], subscriptions := [] }

/-! The claims. -/

/-- C2: if `channelId` is missing or not a well-formed identifier, the status
check fails with a 400 error whose response does not depend on the stores
(no store access); otherwise it answers 200 with `isSubscribed` true exactly
when an edge `(channel = channelId, subscriber = requester)` exists; in every
case both stores are left unchanged. -/
theorem checkSubscriptionStatus_contract (db db' : DB) (requester : String)
    (channelId : Option String) :
    (checkSubscriptionStatus db requester channelId).2 = db
    ∧ ((channelId = none ∨ ∃ c, channelId = some c ∧ isValidObjectId c = false) →
        (∃ m, (checkSubscriptionStatus db requester channelId).1 = Resp.err 400 m)
        ∧ (checkSubscriptionStatus db requester channelId).1
            = (checkSubscriptionStatus db' requester channelId).1)
    ∧ (∀ c, channelId = some c → isValidObjectId c = true →
        (checkSubscriptionStatus db requester channelId).1
          = Resp.ok 200 ⟨(findOneSub db c requester).isSome⟩
        ∧ ((findOneSub db c requester).isSome = true
            ↔ ∃ s ∈ db.subscriptions, s.channel = c ∧ s.subscriber = requester)) := by
  refine ⟨?_, ?_, ?_⟩
  · unfold checkSubscriptionStatus
    rcases channelId with _ | c
    · rfl
    · by_cases h1 : strFalsy (some c) = true
      · simp [h1]
      · simp only [Bool.not_eq_true] at h1
        by_cases h2 : isValidObjectId c = true
        · simp [h1, h2]
        · simp only [Bool.not_eq_true] at h2
          simp [h1, h2]
  · rintro (rfl | ⟨c, rfl, hc⟩)
    · exact ⟨⟨"Channel id is required.", rfl⟩, rfl⟩
    · unfold checkSubscriptionStatus
      by_cases h1 : strFalsy (some c) = true
      · simp [h1]
      · simp only [Bool.not_eq_true] at h1
        simp [h1, hc]
  · rintro c rfl hc
    have h1 : strFalsy (some c) = false := isValidObjectId_ne_empty c hc
    constructor
    · unfold checkSubscriptionStatus
      simp [h1, hc]
    · exact findOneSub_isSome_iff db c requester

/-- Witness for C2 at a concrete valid id and concrete stores. -/
theorem checkSubscriptionStatus_contract_witness :
    (checkSubscriptionStatus dbOneSubscriber idB (some idA)).1
      = Resp.ok 200 ⟨(findOneSub dbOneSubscriber idA idB).isSome⟩ :=
  ((checkSubscriptionStatus_contract dbOneSubscriber dbEmptySubs idB (some idA)).2.2 idA rfl
    (by decide)).1

/-- C9: deletion reporting no effect (`deletedCount = 0`) does not make the
unsubscribe branch fail: the guard tests only JS truthiness of the always-
truthy `deleteOne` result object, so the branch still answers 200 with
`isSubscribed: false`, contradicting the claimed 500 `InternalError`. -/
theorem unsubscribeBranch_ignores_deletedCount (db : DB) :
    unsubscribeBranch ⟨0⟩ db = (Resp.ok 200 ⟨none, false⟩, db) := rfl

/-- C3: with `userId` omitted, the subscriber listing does not resolve the
target to the requester: at a concrete state where the requester has one
subscriber, the omitted-`userId` call answers 404 while the call with
`userId` equal to the requester's id answers 200 with that subscriber; the
freshly generated id matched instead belongs to no user. -/
theorem getChannelSubscribersList_omitted_userId_bug :
    (getChannelSubscribersList dbOneSubscriber idA none 1 10 idC).1
      = Resp.err 404 "No subscribers found for this channel."
    ∧ (getChannelSubscribersList dbOneSubscriber idA (some idA) 1 10 idC).1
      = Resp.ok 200 [toSubscriberSummary userS]
    ∧ idC ∉ dbOneSubscriber.users.map (fun u => u._id) := by
  refine ⟨rfl, rfl, ?_⟩
  decide

/-- C1: for a valid `channelId`, if an edge `(subscriber = requester, channel
= channelId)` exists the toggle deletes the edge found and answers 200 with
`{isSubscribed: false}`; if none exists it appends a new edge and answers 201
with the created edge's data merged with `{isSubscribed: true}`.  The ids in
the subscription store are assumed pairwise distinct, as the store
guarantees. -/
theorem toggleSubscriptionStatus_valid_toggles (db : DB) (requester c freshId : String)
    (hc : isValidObjectId c = true)
    (hnd : (db.subscriptions.map (fun s => s._id)).Nodup) :
    ((findOneSub db c requester).isSome = true
        ↔ ∃ s ∈ db.subscriptions, s.channel = c ∧ s.subscriber = requester)
    ∧ (∀ e, findOneSub db c requester = some e →
        toggleSubscriptionStatus db requester (some c) freshId
          = (Resp.ok 200 ⟨none, false⟩,
             { db with subscriptions := db.subscriptions.erase e }))
    ∧ (findOneSub db c requester = none →
        toggleSubscriptionStatus db requester (some c) freshId
          = (Resp.ok 201 ⟨some (mkSub freshId c requester), true⟩,
             { db with subscriptions := db.subscriptions ++ [mkSub freshId c requester] })) := by
  have h1 : strFalsy (some c) = false := isValidObjectId_ne_empty c hc
  refine ⟨findOneSub_isSome_iff db c requester, ?_, ?_⟩
  · intro e he
    have hmem : e ∈ db.subscriptions := List.mem_of_find?_eq_some he
    have herase := eraseP_by_id_eq_erase db.subscriptions e hmem hnd
    unfold toggleSubscriptionStatus
    simp [h1, hc, he, deleteOneById, unsubscribeBranch, jsTruthyDeleteResult, herase]
  · intro he
    unfold toggleSubscriptionStatus
    simp [h1, hc, he, createSub, jsTruthyDoc]

/-- Witness for C1 at a concrete state holding the edge to delete. -/
theorem toggleSubscriptionStatus_valid_toggles_witness :
    toggleSubscriptionStatus dbOneSubscriber idB (some idA) idC
      = (Resp.ok 200 ⟨none, false⟩,
         { dbOneSubscriber with
             subscriptions := dbOneSubscriber.subscriptions.erase
               { _id := "e1", subscriber := idB, channel := idA } }) :=
  (toggleSubscriptionStatus_valid_toggles dbOneSubscriber idB idA idC (by decide)
      (by decide)).2.1
    { _id := "e1", subscriber := idB, channel := idA } (by decide)

/-- C4: starting from a state with no `(requester, channelId)` edge, the
first toggle subscribes (201, `isSubscribed: true`), the status check then
reports `true`, the second toggle unsubscribes (200, `isSubscribed: false`)
and restores the stores exactly, so no such edge remains and the status
check reports `false`. -/
theorem toggle_twice_involution (db : DB) (requester c fresh1 fresh2 : String)
    (hc : isValidObjectId c = true)
    (hno : ∀ s ∈ db.subscriptions, ¬(s.channel = c ∧ s.subscriber = requester))
    (hfresh : ∀ s ∈ db.subscriptions, s._id ≠ fresh1) :
    (toggleSubscriptionStatus db requester (some c) fresh1).1
      = Resp.ok 201 ⟨some (mkSub fresh1 c requester), true⟩
    ∧ (checkSubscriptionStatus (toggleSubscriptionStatus db requester (some c) fresh1).2
         requester (some c)).1 = Resp.ok 200 ⟨true⟩
    ∧ (toggleSubscriptionStatus (toggleSubscriptionStatus db requester (some c) fresh1).2
         requester (some c) fresh2).1 = Resp.ok 200 ⟨none, false⟩
    ∧ (toggleSubscriptionStatus (toggleSubscriptionStatus db requester (some c) fresh1).2
         requester (some c) fresh2).2 = db
    ∧ (∀ s ∈ (toggleSubscriptionStatus (toggleSubscriptionStatus db requester (some c) fresh1).2
         requester (some c) fresh2).2.subscriptions,
         ¬(s.channel = c ∧ s.subscriber = requester))
    ∧ (checkSubscriptionStatus
         (toggleSubscriptionStatus (toggleSubscriptionStatus db requester (some c) fresh1).2
           requester (some c) fresh2).2 requester (some c)).1 = Resp.ok 200 ⟨false⟩ := by
  have h1 : strFalsy (some c) = false := isValidObjectId_ne_empty c hc
  have hnone : findOneSub db c requester = none := (findOneSub_eq_none_iff db c requester).2 hno
  have hstep1 : toggleSubscriptionStatus db requester (some c) fresh1
      = (Resp.ok 201 ⟨some (mkSub fresh1 c requester), true⟩,
         { db with subscriptions := db.subscriptions ++ [mkSub fresh1 c requester] }) := by
    unfold toggleSubscriptionStatus
    simp [h1, hc, hnone, createSub, jsTruthyDoc]
  have hnone' : db.subscriptions.find?
      (fun s => s.channel == c && s.subscriber == requester) = none := hnone
  have hfind1 : findOneSub
      { db with subscriptions := db.subscriptions ++ [mkSub fresh1 c requester] } c requester
      = some (mkSub fresh1 c requester) := by
    unfold findOneSub
    rw [show ({ db with
          subscriptions := db.subscriptions ++ [mkSub fresh1 c requester] } : DB).subscriptions
        = db.subscriptions ++ [mkSub fresh1 c requester] from rfl]
    rw [find?_append_of_none _ _ _ hnone']
    simp [mkSub]
  have herase : (db.subscriptions ++ [mkSub fresh1 c requester]).eraseP
      (fun s => s._id == (mkSub fresh1 c requester)._id) = db.subscriptions := by
    refine eraseP_append_singleton _ _ _ (fun s hs => ?_) (by simp)
    simp [mkSub]
    exact hfresh s hs
  have hstep2 : toggleSubscriptionStatus
      { db with subscriptions := db.subscriptions ++ [mkSub fresh1 c requester] }
      requester (some c) fresh2 = (Resp.ok 200 ⟨none, false⟩, db) := by
    unfold toggleSubscriptionStatus
    simp [h1, hc, hfind1, deleteOneById, unsubscribeBranch, jsTruthyDeleteResult, herase]
  refine ⟨by rw [hstep1], ?_, ?_, ?_, ?_, ?_⟩
  · rw [hstep1]
    unfold checkSubscriptionStatus
    simp [h1, hc, hfind1]
  · rw [hstep1, hstep2]
  · rw [hstep1, hstep2]
  · rw [hstep1, hstep2]
    exact hno
  · rw [hstep1, hstep2]
    unfold checkSubscriptionStatus
    simp [h1, hc, hnone]

/-- Witness for C4 at a concrete empty-edge state. -/
theorem toggle_twice_involution_witness :
    (toggleSubscriptionStatus (toggleSubscriptionStatus dbEmptySubs idB (some idA) "e9").2
       idB (some idA) "e8").2 = dbEmptySubs :=
  (toggle_twice_involution dbEmptySubs idB idA "e9" "e8" (by decide)
      (by intro s hs; simp [dbEmptySubs] at hs)
      (by intro s hs; simp [dbEmptySubs] at hs)).2.2.2.1

/-! Helper lemmas about the listing pipelines. -/

theorem map_summary_mk (l : List ChannelSummary) (f : ChannelSummary → Bool) :
    (l.map (fun c => ({ c with isSubscribedByMe := f c } : ChannelResult))).map
      (fun c => c.toChannelSummary) = l := by
  induction l with
  | nil => rfl
  | cons a t ih =>
      simp only [List.map_cons]
      rw [ih]

theorem addIsSubscribedByMe_summaries (db : DB) (req : String)
    (pageItems : List ChannelSummary) :
    (addIsSubscribedByMe db req pageItems).map (fun c => c.toChannelSummary) = pageItems := by
  unfold addIsSubscribedByMe
  exact map_summary_mk pageItems _

theorem addIsSubscribedByMe_flag (db : DB) (req : String) (pageItems : List ChannelSummary)
    (ch : ChannelResult) (hch : ch ∈ addIsSubscribedByMe db req pageItems) :
    ch.isSubscribedByMe = true
      ↔ ∃ s ∈ db.subscriptions, s.subscriber = req ∧ s.channel = ch._id := by
  unfold addIsSubscribedByMe at hch
  rcases List.mem_map.1 hch with ⟨c0, hc0, rfl⟩
  have hid : ({ c0 with isSubscribedByMe :=
      ((subscriptionsByMe db req (pageItems.map (fun c => c._id))).map
        (fun s => s.channel)).contains c0._id } : ChannelResult)._id = c0._id := rfl
  rw [hid]
  have hflag : ({ c0 with isSubscribedByMe :=
      ((subscriptionsByMe db req (pageItems.map (fun c => c._id))).map
        (fun s => s.channel)).contains c0._id } : ChannelResult).isSubscribedByMe
      = ((subscriptionsByMe db req (pageItems.map (fun c => c._id))).map
        (fun s => s.channel)).contains c0._id := rfl
  rw [hflag]
  constructor
  · intro h
    have hmem : c0._id ∈ (subscriptionsByMe db req (pageItems.map (fun c => c._id))).map
        (fun s => s.channel) := by simpa using h
    rcases List.mem_map.1 hmem with ⟨s, hs, hsid⟩
    have hs' := List.mem_filter.1 hs
    simp only [Bool.and_eq_true, beq_iff_eq] at hs'
    exact ⟨s, hs'.1, hs'.2.1, hsid⟩
  · rintro ⟨s, hs, hsub, hchan⟩
    have hquery : s ∈ subscriptionsByMe db req (pageItems.map (fun c => c._id)) := by
      unfold subscriptionsByMe
      refine List.mem_filter.2 ⟨hs, ?_⟩
      have hidmem : c0._id ∈ pageItems.map (fun c => c._id) := List.mem_map_of_mem _ hc0
      simp only [Bool.and_eq_true, beq_iff_eq]
      refine ⟨hsub, ?_⟩
      rw [hchan]
      simpa using hidmem
    have : s.channel ∈ (subscriptionsByMe db req (pageItems.map (fun c => c._id))).map
        (fun s => s.channel) := List.mem_map_of_mem _ hquery
    simpa [hchan] using this

theorem subscriptionsByMe_restricted (db : DB) (req : String) (ids : List String)
    (e : SubscriptionDoc) (he : e ∈ subscriptionsByMe db req ids) :
    e.channel ∈ ids ∧ e.subscriber = req := by
  unfold subscriptionsByMe at he
  have h2 := (List.mem_filter.1 he).2
  simp only [Bool.and_eq_true, beq_iff_eq] at h2
  exact ⟨by simpa using h2.2, h2.1⟩

theorem mem_subscribedChannelsAgg (db : DB) (target : String) (c : ChannelSummary)
    (hc : c ∈ subscribedChannelsAgg db target) :
    ∃ s ∈ db.subscriptions, s.subscriber = target ∧ s.channel = c._id := by
  unfold subscribedChannelsAgg at hc
  rcases List.mem_flatMap.1 hc with ⟨s, hs, hcs⟩
  rcases List.mem_map.1 hcs with ⟨u, hu, rfl⟩
  rcases List.mem_filter.1 hs with ⟨hs1, hs2⟩
  rcases List.mem_filter.1 hu with ⟨_, hu2⟩
  refine ⟨s, hs1, by simpa using hs2, ?_⟩
  have : u._id = s.channel := by simpa using hu2
  simp [toChannelSummary, this]

theorem jsCeilDiv_least (t l : Nat) (hl : 0 < l) :
    t ≤ jsCeilDiv t l * l ∧ ∀ m, t ≤ m * l → jsCeilDiv t l ≤ m := by
  have hdef : jsCeilDiv t l = t ⌈/⌉ l := (Nat.ceilDiv_eq_add_pred_div t l).symm
  constructor
  · have h := (ceilDiv_le_iff_le_mul hl (b := t) (c := t ⌈/⌉ l)).1 le_rfl
    rw [hdef, mul_comm]
    exact h
  · intro m hm
    rw [hdef]
    exact (ceilDiv_le_iff_le_mul hl).2 (by rw [mul_comm] at hm; exact hm)

theorem jsCeilDiv_zero (l : Nat) (hl : 0 < l) : jsCeilDiv 0 l = 0 := by
  unfold jsCeilDiv
  exact Nat.div_eq_of_lt (by omega)

theorem subscribedChannelsAgg_of_count_zero (db : DB) (t : String)
    (h : countBySubscriber db t = 0) : subscribedChannelsAgg db t = [] := by
  unfold countBySubscriber at h
  unfold subscribedChannelsAgg
  rw [List.length_eq_zero.1 h]
  rfl

/-- C5: for `page ≥ 1` and `limit ≥ 1`, the subscribed-channels listing
answers 200 with the slice obtained by dropping `(page-1)*limit` summaries
and taking at most `limit`, and `totalPages` is the least number of pages
covering `totalSubscribedChannels` (the ceiling of the division); a target
with zero subscribed channels gets `[]`, `totalPages = 0`,
`totalSubscribedChannels = 0` with status 200, not an error. -/
theorem getUserSubscribedChannels_pagination (db : DB) (requester : String)
    (userId : Option String) (page limit : Nat) (hp : 1 ≤ page) (hl : 1 ≤ limit) :
    (getUserSubscribedChannels db requester userId page limit).1
      = Resp.ok 200
          ⟨addIsSubscribedByMe db requester
             (((subscribedChannelsAgg db (jsOr userId requester)).drop ((page - 1) * limit)).take
               limit),
           page, jsCeilDiv (countBySubscriber db (jsOr userId requester)) limit,
           countBySubscriber db (jsOr userId requester)⟩
    ∧ (addIsSubscribedByMe db requester
         (((subscribedChannelsAgg db (jsOr userId requester)).drop ((page - 1) * limit)).take
           limit)).map (fun c => c.toChannelSummary)
        = ((subscribedChannelsAgg db (jsOr userId requester)).drop ((page - 1) * limit)).take
            limit
    ∧ (countBySubscriber db (jsOr userId requester)
         ≤ jsCeilDiv (countBySubscriber db (jsOr userId requester)) limit * limit
       ∧ ∀ m, countBySubscriber db (jsOr userId requester) ≤ m * limit →
           jsCeilDiv (countBySubscriber db (jsOr userId requester)) limit ≤ m)
    ∧ (countBySubscriber db (jsOr userId requester) = 0 →
        (getUserSubscribedChannels db requester userId page limit).1
          = Resp.ok 200 ⟨[], page, 0, 0⟩) := by
  refine ⟨rfl, addIsSubscribedByMe_summaries db requester _, jsCeilDiv_least _ limit hl, ?_⟩
  intro h0
  have hresp : (getUserSubscribedChannels db requester userId page limit).1
      = Resp.ok 200
          ⟨addIsSubscribedByMe db requester
             (((subscribedChannelsAgg db (jsOr userId requester)).drop ((page - 1) * limit)).take
               limit),
           page, jsCeilDiv (countBySubscriber db (jsOr userId requester)) limit,
           countBySubscriber db (jsOr userId requester)⟩ := rfl
  rw [hresp, h0, subscribedChannelsAgg_of_count_zero db _ h0, jsCeilDiv_zero limit hl]
  simp [addIsSubscribedByMe, subscriptionsByMe]

/-- Witness for C5 at a concrete state, page and limit. -/
theorem getUserSubscribedChannels_pagination_witness :
    (getUserSubscribedChannels dbOneSubscriber idB none 1 10).1
      = Resp.ok 200
          ⟨addIsSubscribedByMe dbOneSubscriber idB
             (((subscribedChannelsAgg dbOneSubscriber (jsOr none idB)).drop ((1 - 1) * 10)).take
               10),
           1, jsCeilDiv (countBySubscriber dbOneSubscriber (jsOr none idB)) 10,
           countBySubscriber dbOneSubscriber (jsOr none idB)⟩ :=
  (getUserSubscribedChannels_pagination dbOneSubscriber idB none 1 10 (by decide)
      (by decide)).1

/-- C6: in both the subscribed-channels listing and the search operation,
each returned channel's `isSubscribedByMe` flag is true exactly when an edge
`(subscriber = requester, channel = that channel)` exists, and the batched
lookup the flag is computed from only ever returns edges of the requester
whose channel lies in the id list it was restricted to. -/
theorem isSubscribedByMe_iff_edge (db : DB) (requester : String) (userId : Option String)
    (search : String) (page limit : Nat) :
    (∀ d, (getUserSubscribedChannels db requester userId page limit).1 = Resp.ok 200 d →
       ∀ ch ∈ d.subscribedChannels,
         (ch.isSubscribedByMe = true
           ↔ ∃ s ∈ db.subscriptions, s.subscriber = requester ∧ s.channel = ch._id))
    ∧ (∀ d, (searchSubscribedChannels db requester userId search page limit).1
          = Resp.ok 200 d →
       ∀ ch ∈ d.subscribedChannels,
         (ch.isSubscribedByMe = true
           ↔ ∃ s ∈ db.subscriptions, s.subscriber = requester ∧ s.channel = ch._id))
    ∧ (∀ ids, ∀ e ∈ subscriptionsByMe db requester ids,
         e.channel ∈ ids ∧ e.subscriber = requester) := by
  refine ⟨?_, ?_, fun ids e he => subscriptionsByMe_restricted db requester ids e he⟩
  · intro d hd ch hch
    have hd' : d = ⟨addIsSubscribedByMe db requester
        (((subscribedChannelsAgg db (jsOr userId requester)).drop ((page - 1) * limit)).take
          limit),
        page, jsCeilDiv (countBySubscriber db (jsOr userId requester)) limit,
        countBySubscriber db (jsOr userId requester)⟩ := by
      have : Resp.ok (α := SubscribedChannelsData) 200 d
          = Resp.ok 200 ⟨addIsSubscribedByMe db requester
              (((subscribedChannelsAgg db (jsOr userId requester)).drop
                ((page - 1) * limit)).take limit),
              page, jsCeilDiv (countBySubscriber db (jsOr userId requester)) limit,
              countBySubscriber db (jsOr userId requester)⟩ := by
        rw [← hd]; rfl
      cases this
      rfl
    subst hd'
    exact addIsSubscribedByMe_flag db requester _ ch hch
  · intro d hd ch hch
    have hd' : d = ⟨addIsSubscribedByMe db requester
        (((searchChannelsAgg db (jsOr userId requester) search).drop
          ((page - 1) * limit)).take limit),
        page, jsCeilDiv (searchCountAgg db (jsOr userId requester) search) limit,
        searchCountAgg db (jsOr userId requester) search⟩ := by
      have : Resp.ok (α := SubscribedChannelsData) 200 d
          = Resp.ok 200 ⟨addIsSubscribedByMe db requester
              (((searchChannelsAgg db (jsOr userId requester) search).drop
                ((page - 1) * limit)).take limit),
              page, jsCeilDiv (searchCountAgg db (jsOr userId requester) search) limit,
              searchCountAgg db (jsOr userId requester) search⟩ := by
        rw [← hd]; rfl
      cases this
      rfl
    subst hd'
    exact addIsSubscribedByMe_flag db requester _ ch hch

/-- Witness for C6: the one channel on the concrete page carries a true flag
and the matching edge exists. -/
theorem isSubscribedByMe_iff_edge_witness :
    ∃ s ∈ dbOneSubscriber.subscriptions,
      s.subscriber = idB
        ∧ s.channel = (⟨⟨idA, "ruser", "R User", "r.png", 1⟩, true⟩ : ChannelResult)._id :=
  ((isSubscribedByMe_iff_edge dbOneSubscriber idB none "" 1 10).1 _ rfl
      ⟨⟨idA, "ruser", "R User", "r.png", 1⟩, true⟩ (by decide)).1 (by decide)

/-- C10: when `userId` is omitted the subscribed-channels listing targets the
requester, so every returned channel was produced by one of the requester's
own edges and its `isSubscribedByMe` flag is true. -/
theorem getUserSubscribedChannels_self_all_subscribed (db : DB) (requester : String)
    (page limit : Nat) :
    ∀ d, (getUserSubscribedChannels db requester none page limit).1 = Resp.ok 200 d →
      ∀ ch ∈ d.subscribedChannels, ch.isSubscribedByMe = true := by
  intro d hd ch hch
  have hd' : d = ⟨addIsSubscribedByMe db requester
      (((subscribedChannelsAgg db requester).drop ((page - 1) * limit)).take limit),
      page, jsCeilDiv (countBySubscriber db requester) limit,
      countBySubscriber db requester⟩ := by
    have : Resp.ok (α := SubscribedChannelsData) 200 d
        = Resp.ok 200 ⟨addIsSubscribedByMe db requester
            (((subscribedChannelsAgg db requester).drop ((page - 1) * limit)).take limit),
            page, jsCeilDiv (countBySubscriber db requester) limit,
            countBySubscriber db requester⟩ := by
      rw [← hd]; rfl
    cases this
    rfl
  subst hd'
  have hiff := addIsSubscribedByMe_flag db requester _ ch hch
  rw [hiff]
  -- the page entry itself arises from an edge (requester → ch._id)
  unfold addIsSubscribedByMe at hch
  rcases List.mem_map.1 hch with ⟨c0, hc0, rfl⟩
  have hc0' : c0 ∈ subscribedChannelsAgg db requester :=
    List.mem_of_mem_drop (List.mem_of_mem_take hc0)
  rcases mem_subscribedChannelsAgg db requester c0 hc0' with ⟨s, hs, hsub, hchan⟩
  exact ⟨s, hs, hsub, hchan⟩

/-- Witness for C10 at a concrete state where the requester subscribes to one
channel. -/
theorem getUserSubscribedChannels_self_all_subscribed_witness :
    (⟨⟨idA, "ruser", "R User", "r.png", 1⟩, true⟩ : ChannelResult).isSubscribedByMe = true :=
  getUserSubscribedChannels_self_all_subscribed dbOneSubscriber idB 1 10 _ rfl
    ⟨⟨idA, "ruser", "R User", "r.png", 1⟩, true⟩ (by decide)

/-- C7 counterexample: with `userId` omitted the operation answers 404 even
though the target per the spec's default (the requester) has a nonempty
subscriber sequence, so "fails with NotFound exactly when that sequence is
empty" does not hold for the omitted-`userId` case. -/
theorem getChannelSubscribersList_default_target_counterexample :
    (getChannelSubscribersList dbOneSubscriber idA none 1 10 idC).1
      = Resp.err 404 "No subscribers found for this channel."
    ∧ channelSubscribersAgg dbOneSubscriber idA = [toSubscriberSummary userS] := ⟨rfl, rfl⟩

/-- C7 (amended): when `userId` is provided, the listing answers with the
full flat ordered sequence of that channel's subscriber summaries — `page`,
`limit` and the generated fresh id have no effect on the result — and it
fails with 404 exactly when that sequence is empty. -/
theorem getChannelSubscribersList_given_userId_contract (db : DB) (requester u : String)
    (page limit page2 limit2 : Nat) (fresh fresh2 : String)
    (hu : isValidObjectId u = true) :
    (channelSubscribersAgg db u = [] →
        getChannelSubscribersList db requester (some u) page limit fresh
          = (Resp.err 404 "No subscribers found for this channel.", db))
    ∧ (channelSubscribersAgg db u ≠ [] →
        getChannelSubscribersList db requester (some u) page limit fresh
          = (Resp.ok 200 (channelSubscribersAgg db u), db))
    ∧ getChannelSubscribersList db requester (some u) page limit fresh
        = getChannelSubscribersList db requester (some u) page2 limit2 fresh2 := by
  refine ⟨?_, ?_, rfl⟩
  · intro h
    unfold getChannelSubscribersList
    simp [objectIdOfParam, h]
  · intro h
    unfold getChannelSubscribersList
    simp [objectIdOfParam, List.length_eq_zero, h]

/-- Witness for C7 at a concrete provided `userId` with one subscriber. -/
theorem getChannelSubscribersList_given_userId_contract_witness :
    getChannelSubscribersList dbOneSubscriber idB (some idA) 1 10 idC
      = (Resp.ok 200 (channelSubscribersAgg dbOneSubscriber idA), dbOneSubscriber) :=
  (getChannelSubscribersList_given_userId_contract dbOneSubscriber idB idA 1 10 3 7 idC idD
      (by decide)).2.1 (by decide)

/-! Helper lemmas for the search count. -/

theorem listContainsRun_nil (l : List Char) : listContainsRun [] l = true := by
  cases l <;> simp [listContainsRun, listPrefixOf]

theorem strContainsCI_empty (s : String) : strContainsCI "" s = true := by
  unfold strContainsCI
  rw [show ("".toList.map Char.toLower) = [] from rfl]
  exact listContainsRun_nil _

theorem matchesSearch_empty (u : User) : matchesSearch "" u = true := by
  simp [matchesSearch, strContainsCI_empty]

theorem filter_count_eq_one (l : List User) (x : String)
    (hnd : (l.map (fun u => u._id)).Nodup) (hx : ∃ u ∈ l, u._id = x) :
    (l.filter (fun u => u._id == x)).length = 1 := by
  induction l with
  | nil =>
      rcases hx with ⟨u, hu, _⟩
      cases hu
  | cons a t ih =>
      rcases List.nodup_cons.1 hnd with ⟨hna, hndt⟩
      by_cases hax : a._id = x
      · have ht : t.filter (fun u => u._id == x) = [] := by
          refine List.filter_eq_nil_iff.2 (fun v hv hvx => ?_)
          have hvm : v._id ∈ t.map (fun u => u._id) := List.mem_map_of_mem _ hv
          rw [eq_of_beq hvx, ← hax] at hvm
          exact hna hvm
        simp [List.filter_cons, hax, ht]
      · rcases hx with ⟨u, hu, hux⟩
        rcases List.mem_cons.1 hu with rfl | hut
        · exact absurd hux hax
        · have hfa : (a._id == x) = false := by simpa using hax
          simp only [List.filter_cons, hfa, Bool.false_eq_true, if_false]
          exact ih hndt ⟨u, hut, hux⟩

theorem sum_map_ones {α : Type} (l : List α) (f : α → Nat) (h : ∀ x ∈ l, f x = 1) :
    (l.map f).sum = l.length := by
  induction l with
  | nil => rfl
  | cons a t ih =>
      simp only [List.map_cons, List.sum_cons, h a (List.mem_cons_self a t),
        ih (fun x hx => h x (List.mem_cons_of_mem a hx)), List.length_cons]
      omega

theorem searchCountAgg_empty_search (db : DB) (t : String)
    (husers : (db.users.map (fun u => u._id)).Nodup)
    (href : ∀ s ∈ db.subscriptions, s.subscriber = t → ∃ u ∈ db.users, u._id = s.channel) :
    searchCountAgg db t "" = countBySubscriber db t := by
  unfold searchCountAgg countBySubscriber
  have hfun : (fun s : SubscriptionDoc =>
        ((db.users.filter (fun u => u._id == s.channel)).filter (matchesSearch "")))
      = fun s : SubscriptionDoc => db.users.filter (fun u => u._id == s.channel) :=
    funext (fun s => List.filter_eq_self.2 (fun u _ => matchesSearch_empty u))
  rw [hfun, List.length_flatMap]
  refine sum_map_ones _ _ (fun s hs => ?_)
  have hsub : s.subscriber = t := by
    have := (List.mem_filter.1 hs).2
    simpa using this
  exact filter_count_eq_one db.users s.channel husers
    (href s (List.mem_filter.1 hs).1 hsub)

/-- Extracts `totalSubscribedChannels` from a successful listing response. -/
def totalOf : Resp SubscribedChannelsData → Option Nat
  | .ok _ d => some d.totalSubscribedChannels
  | .err _ _ => none

/-- C8 counterexample: at a state whose only edge of the target points to a
channel id with no user document, the unfiltered listing reports
`totalSubscribedChannels = 1` while the empty-string search reports `0`
(its pipeline drops the dangling edge at the join). -/
theorem search_empty_count_counterexample :
    (getUserSubscribedChannels dbDangling idA (some idB) 1 10).1
      = Resp.ok 200 ⟨[], 1, 1, 1⟩
    ∧ (searchSubscribedChannels dbDangling idA (some idB) "" 1 10).1
      = Resp.ok 200 ⟨[], 1, 0, 0⟩ := ⟨rfl, rfl⟩

/-- C8 (amended): in states where every edge of the target points to an
existing user document (and user ids are pairwise distinct, as the store
guarantees), the empty-string search reports the same
`totalSubscribedChannels` as the unfiltered listing, namely the target's
edge count, for any pages and limits. -/
theorem search_empty_count_eq_listing_count (db : DB) (requester : String)
    (userId : Option String) (page limit page2 limit2 : Nat)
    (husers : (db.users.map (fun u => u._id)).Nodup)
    (href : ∀ s ∈ db.subscriptions, s.subscriber = jsOr userId requester →
        ∃ u ∈ db.users, u._id = s.channel) :
    totalOf (searchSubscribedChannels db requester userId "" page limit).1
      = totalOf (getUserSubscribedChannels db requester userId page2 limit2).1
    ∧ totalOf (getUserSubscribedChannels db requester userId page2 limit2).1
        = some (countBySubscriber db (jsOr userId requester)) := by
  have hkey := searchCountAgg_empty_search db (jsOr userId requester) husers href
  refine ⟨?_, rfl⟩
  show some (searchCountAgg db (jsOr userId requester) "")
      = some (countBySubscriber db (jsOr userId requester))
  rw [hkey]

/-- Witness for C8 at a concrete referentially intact state. -/
theorem search_empty_count_eq_listing_count_witness :
    totalOf (searchSubscribedChannels dbOneSubscriber idA (some idB) "" 1 10).1
      = totalOf (getUserSubscribedChannels dbOneSubscriber idA (some idB) 2 5).1 :=
  (search_empty_count_eq_listing_count dbOneSubscriber idA (some idB) 1 10 2 5 (by decide)
      (by decide)).1

end VideoTube
